import Mathlib

/-!
Shallow embedding of the 2PC participant simulator
(`scripts/phase2_test.py`, class `Phase2Sequencer`).

Conventions of the embedding:
* Python `bytes` values are `List Nat` (each element a byte value; Python's
  `bytes([n])` raises for `n > 255`, so theorems that feed lengths into a
  single-byte position carry explicit `≤ 255` / `≤ 127` bounds where the
  range matters).
* Python strings (`client_id`, decoded `sender_id`) are represented by their
  UTF-8 byte lists; the `data[pos:pos+length].decode('utf-8')` call is
  modelled as taking the raw slice (UTF-8 validation failure is one of the
  exceptions folded into the parser's `None` result and is not modelled
  bit-exactly; all inputs used in theorems are plain ASCII).
* The parser's moving cursor `pos` over a fixed buffer is represented by the
  remaining suffix of the buffer: every read in the source is at `pos` or
  beyond, `pos` only moves forward, and Python slices clamp at the end of
  the buffer exactly as `List.take`/`List.drop` do.
* Exceptions caught by the `try/except` in `parse_message` (the unguarded
  `data[pos]` reads that can raise `IndexError`) are modelled by an explicit
  `none` result, matching the Python `None` return.
* Wall-clock values (`time.sleep`, `time.time()`, `random.uniform`) are not
  modelled; delayed sends are represented as explicitly scheduled tasks, and
  the clock-dependent `block_data` string is a parameter.
-/

namespace Phase2

/-- MessageType enum (phase2_test.py lines 15-19). -/
inductive MessageType where
  | XT_REQUEST
  | VOTE
  | DECIDED
  | BLOCK
deriving DecidableEq, Repr

/-- SequencerState enum (phase2_test.py lines 21-25). -/
inductive SequencerState where
  | IDLE
  | VOTING
  | COMMITTED
  | ABORTED
deriving DecidableEq, Repr

/-- Fuelled body of encode_varint (lines 170-177): little-endian base-128
groups, continuation bit set on all but the last byte, one group per
iteration of the `while value >= 0x80` loop.  `value >>> 7 < value` whenever
the loop continues, so fuel equal to the initial value always suffices; the
fuel-out branch coincides with the final `result += bytes([value & 0x7f])`
and is unreachable while `value ≥ 0x80`. -/
def encodeVarintF : Nat → Nat → List Nat
  | 0, value => [value &&& 0x7f]
  | fuel + 1, value =>
    if value ≥ 0x80 then
      (value &&& 0x7f ||| 0x80) :: encodeVarintF fuel (value >>> 7)
    else
      [value &&& 0x7f]

/-- encode_varint (lines 170-177). -/
def encodeVarint (value : Nat) : List Nat :=
  encodeVarintF value value

/-- Core loop of decode_varint (lines 179-191) viewed on the remaining
suffix of the buffer: accumulate 7-bit groups until a byte with clear
continuation bit, or until the buffer runs out.  Returns the accumulated
value and the unconsumed suffix. -/
def decodeVarintRem : List Nat → Nat → Nat → Nat × List Nat
  | [], _, result => (result, [])
  | byte :: rest, shift, result =>
    let result' := result ||| ((byte &&& 0x7f) <<< shift)
    if byte &&& 0x80 = 0 then (result', rest)
    else decodeVarintRem rest (shift + 7) result'

/-- decode_varint (lines 179-191): starting at `offset` in `data`, returns
`(result, pos)` where `pos` is the index just past the consumed bytes (or
`data.length` if the buffer ran out).  Note the source never signals an
error: the `while pos < len(data)` loop simply ends. -/
def decodeVarint (data : List Nat) (offset : Nat) : Nat × Nat :=
  let r := decodeVarintRem (data.drop offset) 0 0
  (r.1, data.length - r.2.length)

/-- Result dictionary of parse_message (lines 257-262). -/
structure ParsedMsg where
  sender_id : List Nat
  message_type : Option MessageType
  xt_id : Option Nat
  decision : Option Bool
deriving DecidableEq, Repr

/-- Inner loop over decided_data (lines 234-247), on the remaining suffix.
Unknown fields advance by one byte (`d_pos += 1`). -/
def parseDecidedF : Nat → List Nat → Option Nat → Option Bool → Option Nat × Option Bool
  | _, [], xt, dec => (xt, dec)
  | 0, _ :: _, xt, dec => (xt, dec)
  | fuel + 1, b :: rest, xt, dec =>
    let fn := b >>> 3
    let wt := b &&& 0x07
    if fn = 1 ∧ wt = 0 then
      let r := decodeVarintRem rest 0 0
      parseDecidedF fuel r.2 (some r.1) dec
    else if fn = 2 ∧ wt = 0 then
      let r := decodeVarintRem rest 0 0
      parseDecidedF fuel r.2 xt (some (r.1 ≠ 0))
    else
      parseDecidedF fuel rest xt dec

/-- Decided-payload scan (lines 234-247).  Each iteration consumes at least
the header byte, so `decided_data.length` steps of fuel always suffice. -/
def parseDecided (dd : List Nat) (xt : Option Nat) (dec : Option Bool) :
    Option Nat × Option Bool :=
  parseDecidedF dd.length dd xt dec

/-- Main loop of parse_message (lines 193-266) on the remaining suffix of
the buffer, fuelled (each iteration consumes at least the header byte, so
`data.length` steps of fuel always suffice — theorems `parseLoopF_agree`
and `parseRun_isSome`).
Outer `none` = fuel exhausted (never happens from `parseMessage`);
`some none` = a Python exception caught by the `try/except` (the unguarded
`data[pos]` length reads); `some (some m)` = the returned dictionary. -/
def parseLoopF : Nat → List Nat → List Nat → Option MessageType → Option Nat →
    Option Bool → Option (Option ParsedMsg)
  | _, [], sender, mt, xt, dec => some (some (ParsedMsg.mk sender mt xt dec))
  | 0, _ :: _, _, _, _, _ => none
  | fuel + 1, b :: tail, sender, mt, xt, dec =>
    let fn := b >>> 3
    let wt := b &&& 0x07
    if fn = 1 ∧ wt = 2 then
      -- lines 213-217: sender_id; `length = data[pos]` is unguarded
      match tail with
      | [] => some none
      | len :: t2 => parseLoopF fuel (t2.drop len) (t2.take len) mt xt dec
    else if fn = 2 ∧ wt = 2 then
      -- lines 219-224: xt_request recognized, nested payload skipped
      match tail with
      | [] => some none
      | len :: t2 => parseLoopF fuel (t2.drop len) sender (some MessageType.XT_REQUEST) xt dec
    else if fn = 4 ∧ wt = 2 then
      -- lines 226-247: decided, nested payload scanned for xt_id/decision
      match tail with
      | [] => some none
      | len :: t2 =>
        let r := parseDecided (t2.take len) xt dec
        parseLoopF fuel (t2.drop len) sender (some MessageType.DECIDED) r.1 r.2
    else if wt = 2 then
      -- lines 250-253: unknown length-delimited field, skip one length byte
      -- then `length` bytes; the `if pos < len(data)` guard means an empty
      -- tail falls out of the loop with the current values
      match tail with
      | [] => some (some (ParsedMsg.mk sender mt xt dec))
      | len :: t2 => parseLoopF fuel (t2.drop len) sender mt xt dec
    else
      -- line 255: unknown non-length-delimited field: `pos += 1` only
      parseLoopF fuel (tail.drop 1) sender mt xt dec

/-- parse_message's loop at its canonical fuel (the buffer length). -/
def parseRun (rest sender : List Nat) (mt : Option MessageType) (xt : Option Nat)
    (dec : Option Bool) : Option (Option ParsedMsg) :=
  parseLoopF rest.length rest sender mt xt dec

/-- parse_message (lines 193-266): returns the dictionary, or `none` for the
Python `None` produced when an exception is caught. -/
def parseMessage (data : List Nat) : Option ParsedMsg :=
  match parseRun data [] none none none with
  | some r => r
  | none => none

/-- Length field used inside create_xt_request_message (lines 79-83 and
96-100): a proper varint for lengths over 127, a single raw byte otherwise.
The other encoders write `bytes([len(...)])` directly. -/
def lenGuard (n : Nat) : List Nat :=
  if n > 127 then encodeVarint n else [n]

/-- tx_data built per chain in create_xt_request_message (line 61). -/
def txData (i : Nat) : List Nat := [0x01, 0x02, 0x03, 0x04, 0x05 + i]

/-- One TransactionRequest (lines 64-73): field 1 chain_id, field 2 one
transaction payload, single-byte lengths. -/
def txRequest (chainId : List Nat) (i : Nat) : List Nat :=
  [0x0a, chainId.length] ++ chainId ++ [0x12, (txData i).length] ++ txData i

/-- XTRequest body (lines 57-84): one field-1 entry per participating chain,
each length via `lenGuard`. -/
def xtRequestBody (chains : List (List Nat)) : List Nat :=
  (chains.enum.map (fun p =>
    [0x0a] ++ lenGuard (txRequest p.2 p.1).length ++ txRequest p.2 p.1)).flatten

/-- Default participating_chains (lines 50-54). -/
def defaultChains : List (List Nat) :=
  [[0x12, 0x34], [0x13, 0x35], [0x14, 0x36]]

/-- create_xt_request_message (lines 46-103): sender_id as field 1
(single-byte length), XTRequest as field 2 with `lenGuard` length. -/
def createXtRequestMessage (clientId : List Nat) (chains : List (List Nat)) : List Nat :=
  [0x0a, clientId.length] ++ clientId
    ++ [0x12] ++ lenGuard (xtRequestBody chains).length ++ xtRequestBody chains

/-- Vote payload (lines 108-120): field 1 sender_chain_id (single-byte
length), field 2 xt_id varint, field 3 vote flag. -/
def votePayload (chainId : List Nat) (xtId : Nat) (voteDecision : Bool) : List Nat :=
  [0x0a, chainId.length] ++ chainId ++ [0x10] ++ encodeVarint xtId
    ++ [0x18, if voteDecision then 1 else 0]

/-- create_vote_message (lines 105-134): sender_id as field 1, Vote as
field 3 — every length a single raw byte. -/
def createVoteMessage (clientId chainId : List Nat) (xtId : Nat)
    (voteDecision : Bool) : List Nat :=
  [0x0a, clientId.length] ++ clientId
    ++ [0x1a, (votePayload chainId xtId voteDecision).length]
    ++ votePayload chainId xtId voteDecision

/-- Block payload (lines 139-154): field 1 chain_id, field 2 block_data
(clock-dependent in the source, a parameter here), field 3 one varint per
included xt_id. -/
def blockPayload (chainId blockData : List Nat) (includedXtIds : List Nat) : List Nat :=
  [0x0a, chainId.length] ++ chainId ++ [0x12, blockData.length] ++ blockData
    ++ (includedXtIds.map (fun x => 0x18 :: encodeVarint x)).flatten

/-- create_block_message (lines 136-168): sender_id as field 1, Block as
field 5 — every length a single raw byte. -/
def createBlockMessage (clientId chainId blockData : List Nat)
    (includedXtIds : List Nat) : List Nat :=
  [0x0a, clientId.length] ++ clientId
    ++ [0x2a, (blockPayload chainId blockData includedXtIds).length]
    ++ blockPayload chainId blockData includedXtIds

/-- 4-byte big-endian length, struct.pack('>I', len) (lines 286, 316, 346). -/
def be4 (n : Nat) : List Nat :=
  [(n >>> 24) % 256, (n >>> 16) % 256, (n >>> 8) % 256, n % 256]

/-- One transmitted frame: length prefixed message. -/
def frame (m : List Nat) : List Nat := be4 m.length ++ m

/-- Python dict lookup on the active_transactions map. -/
def dictLookup : List (Nat × Bool) → Nat → Option Bool
  | [], _ => none
  | (k, v) :: t, x => if k = x then some v else dictLookup t x

/-- Python dict assignment `m[k] = v`: overwrite if present, append
otherwise. -/
def dictInsert : List (Nat × Bool) → Nat → Bool → List (Nat × Bool)
  | [], k, v => [(k, v)]
  | (k', v') :: t, k, v =>
    if k' = k then (k, v) :: t else (k', v') :: dictInsert t k v

/-- Python `del m[k]` (guarded by `if k in m` at every call site): drop the
entry for `k`. -/
def dictErase (m : List (Nat × Bool)) (k : Nat) : List (Nat × Bool) :=
  m.filter (fun p => p.1 != k)

/-- Participant state (fields set in __init__, lines 28-38, plus the
`_current_xt_id` attribute created on first use with `getattr` default 0,
lines 291 and 303).  The socket handle and the randomly drawn vote_delay
are not modelled. -/
structure PState where
  client_id : List Nat
  chain_id : List Nat
  vote_strategy : String
  state : SequencerState
  active_transactions : List (Nat × Bool)
  currentXtId : Nat
  running : Bool
deriving DecidableEq, Repr

/-- __init__ (lines 28-38): running=True, state=IDLE, empty map, and the
`_current_xt_id` attribute not yet set (getattr default 0). -/
def initState (clientId chainId : List Nat) (strategy : String) : PState :=
  ⟨clientId, chainId, strategy, SequencerState.IDLE, [], 0, true⟩

/-- A delayed send scheduled on its own thread (threading.Thread(...).start()
at lines 293, 307, 335).  The Decided handler passes the parsed xt_id
through unchecked, hence `Option Nat` for the block task. -/
inductive Task where
  | sendVote (xtId : Nat)
  | sendBlock (xtId : Option Nat)
deriving DecidableEq, Repr

/-- Python truthiness of the parsed `decision` value (`if decision:` at
line 332): `None` and `False` are falsy. -/
def pyTruthy : Option Bool → Bool
  | some true => true
  | _ => false

/-- decide_vote (lines 268-281).  The `random` strategy's coin and the
`delay` strategy's sleep are abstracted: the coin is a parameter, the sleep
is not modelled.  Unknown strategy strings default to commit. -/
def decideVote (strategy : String) (randomChoice : Bool) : Bool :=
  if strategy = "commit" then true
  else if strategy = "abort" then false
  else if strategy = "random" then randomChoice
  else if strategy = "delay" then true
  else true

/-- handle_xt_request (lines 295-307): advance the local counter and
schedule send_vote_after_delay for the new id.  Nothing else changes; in
particular active_transactions is untouched. -/
def handleXtRequest (st : PState) : PState × List Task :=
  let newId := st.currentXtId + 1
  ({ st with currentXtId := newId }, [Task.sendVote newId])

/-- send_transaction (lines 283-293): send the XTRequest frame, advance the
counter exactly as handle_xt_request does, schedule the self-vote. -/
def sendTransaction (st : PState) : PState × List (List Nat) × List Task :=
  let msg := createXtRequestMessage st.client_id defaultChains
  let newId := st.currentXtId + 1
  ({ st with currentXtId := newId }, [frame msg], [Task.sendVote newId])

/-- send_vote_after_delay (lines 309-322): after the delay, decide, send the
Vote frame, then record the pending decision in active_transactions. -/
def sendVoteAfterDelay (st : PState) (xtId : Nat) (randomChoice : Bool) :
    PState × List (List Nat) :=
  let voteDecision := decideVote st.vote_strategy randomChoice
  let msg := createVoteMessage st.client_id st.chain_id xtId voteDecision
  ({ st with active_transactions := dictInsert st.active_transactions xtId voteDecision },
   [frame msg])

/-- handle_decided (lines 324-339): on a truthy decision set state COMMITTED
and schedule send_block_after_delay; otherwise set state ABORTED and drop
the pending entry if present.  The pending map is never consulted before
acting on a truthy decision. -/
def handleDecided (st : PState) (xtId : Option Nat) (decision : Option Bool) :
    PState × List Task :=
  if pyTruthy decision then
    ({ st with state := SequencerState.COMMITTED }, [Task.sendBlock xtId])
  else
    match xtId with
    | some x =>
      ({ st with state := SequencerState.ABORTED,
                 active_transactions := dictErase st.active_transactions x }, [])
    | none => ({ st with state := SequencerState.ABORTED }, [])

/-- send_block_after_delay (lines 341-352): send one Block frame containing
exactly [xt_id], then drop the pending entry if present. -/
def sendBlockAfterDelay (st : PState) (xtId : Nat) (blockData : List Nat) :
    PState × List (List Nat) :=
  let msg := createBlockMessage st.client_id st.chain_id blockData [xtId]
  ({ st with active_transactions := dictErase st.active_transactions xtId },
   [frame msg])

/-- One observable outcome of an iteration of the receive loop: a read
timeout, a zero-byte read (peer closed), any other socket exception, or a
fully accumulated frame payload. -/
inductive RecvEvent where
  | timeoutEv
  | closedEv
  | errorEv
  | frameEv (payload : List Nat)
deriving DecidableEq, Repr

/-- receive_messages (lines 354-386): loop while running; `continue` on
timeout, `break` on empty read or exception, otherwise parse and dispatch.
Note no branch assigns to `running`. -/
def receiveLoop : PState → List RecvEvent → PState × List Task
  | st, [] => (st, [])
  | st, e :: rest =>
    if st.running then
      match e with
      | RecvEvent.timeoutEv => receiveLoop st rest
      | RecvEvent.closedEv => (st, [])
      | RecvEvent.errorEv => (st, [])
      | RecvEvent.frameEv payload =>
        match parseMessage payload with
        | some m =>
          if m.message_type = some MessageType.XT_REQUEST then
            let r := handleXtRequest st
            let r2 := receiveLoop r.1 rest
            (r2.1, r.2 ++ r2.2)
          else if m.message_type = some MessageType.DECIDED then
            let r := handleDecided st m.xt_id m.decision
            let r2 := receiveLoop r.1 rest
            (r2.1, r.2 ++ r2.2)
          else receiveLoop st rest
        | none => receiveLoop st rest
    else (st, [])

/-- The `finally` block of run (lines 409-413), reached only after the main
loop observes `running = False` (set externally by the harness) or a
KeyboardInterrupt: it is the only place the flag is cleared. -/
def runCleanup (st : PState) : PState :=
  { st with running := false }

/-- The sequence of locally inferred xt_ids over `n` consecutive observed
proposals (each observation runs the counter logic of handle_xt_request,
lines 303-304, identical to send_transaction's lines 291-292). -/
def observeIds : Nat → PState → List Nat
  | 0, _ => []
  | n + 1, st => (handleXtRequest st).1.currentXtId :: observeIds n (handleXtRequest st).1

end Phase2

namespace Phase2

/-! Helper lemmas. -/

/-- The fuelled parse loop is insensitive to the exact fuel as long as the
fuel covers the remaining buffer: every iteration consumes at least the
header byte. -/
theorem parseLoopF_agree : (rest : List Nat) → (f g : Nat) → (sender : List Nat) →
    (mt : Option MessageType) → (xt : Option Nat) → (dec : Option Bool) →
    rest.length ≤ f → rest.length ≤ g →
    parseLoopF f rest sender mt xt dec = parseLoopF g rest sender mt xt dec
  | [], _, _, _, _, _, _, _, _ => by simp only [parseLoopF]
  | _ :: _, 0, _, _, _, _, _, hf, _ => absurd hf (by simp)
  | _ :: _, _ + 1, 0, _, _, _, _, _, hg => absurd hg (by simp)
  | [b], f + 1, g + 1, sender, mt, xt, dec, hf, hg => by
    by_cases h1 : b >>> 3 = 1 ∧ b &&& 0x07 = 2
    · simp only [parseLoopF, if_pos h1]
    · by_cases h2 : b >>> 3 = 2 ∧ b &&& 0x07 = 2
      · simp only [parseLoopF, if_neg h1, if_pos h2]
      · by_cases h4 : b >>> 3 = 4 ∧ b &&& 0x07 = 2
        · simp only [parseLoopF, if_neg h1, if_neg h2, if_pos h4]
        · by_cases hw : b &&& 0x07 = 2
          · simp only [parseLoopF, if_neg h1, if_neg h2, if_neg h4, if_pos hw]
          · simp only [parseLoopF, if_neg h1, if_neg h2, if_neg h4, if_neg hw, List.drop_nil]
  | b :: len :: t2, f + 1, g + 1, sender, mt, xt, dec, hf, hg => by
    have hbf : (t2.drop len).length ≤ f := by simp at hf ⊢; omega
    have hbg : (t2.drop len).length ≤ g := by simp at hg ⊢; omega
    by_cases h1 : b >>> 3 = 1 ∧ b &&& 0x07 = 2
    · simp only [parseLoopF, if_pos h1]
      exact parseLoopF_agree (t2.drop len) f g (t2.take len) mt xt dec hbf hbg
    · by_cases h2 : b >>> 3 = 2 ∧ b &&& 0x07 = 2
      · simp only [parseLoopF, if_neg h1, if_pos h2]
        exact parseLoopF_agree (t2.drop len) f g sender (some MessageType.XT_REQUEST) xt dec hbf hbg
      · by_cases h4 : b >>> 3 = 4 ∧ b &&& 0x07 = 2
        · simp only [parseLoopF, if_neg h1, if_neg h2, if_pos h4]
          exact parseLoopF_agree (t2.drop len) f g sender (some MessageType.DECIDED) _ _ hbf hbg
        · by_cases hw : b &&& 0x07 = 2
          · simp only [parseLoopF, if_neg h1, if_neg h2, if_neg h4, if_pos hw]
            exact parseLoopF_agree (t2.drop len) f g sender mt xt dec hbf hbg
          · simp only [parseLoopF, if_neg h1, if_neg h2, if_neg h4, if_neg hw]
            exact parseLoopF_agree ((len :: t2).drop 1) f g sender mt xt dec
              (by simp at hf ⊢; omega) (by simp at hg ⊢; omega)
termination_by rest => rest.length
decreasing_by all_goals (simp; omega)

/-- At its canonical fuel (the buffer length) the parse loop never runs out
of fuel: it always reaches either the result dictionary or the
caught-exception `none`. -/
theorem parseRun_isSome : (rest : List Nat) → (sender : List Nat) →
    (mt : Option MessageType) → (xt : Option Nat) → (dec : Option Bool) →
    (parseRun rest sender mt xt dec).isSome = true
  | [], sender, mt, xt, dec => rfl
  | [b], sender, mt, xt, dec => by
    by_cases h1 : b >>> 3 = 1 ∧ b &&& 0x07 = 2
    · simp only [parseRun, parseLoopF, if_pos h1, List.length_cons, List.length_nil, Option.isSome]
    · by_cases h2 : b >>> 3 = 2 ∧ b &&& 0x07 = 2
      · simp only [parseRun, parseLoopF, if_neg h1, if_pos h2, List.length_cons, List.length_nil,
          Option.isSome]
      · by_cases h4 : b >>> 3 = 4 ∧ b &&& 0x07 = 2
        · simp only [parseRun, parseLoopF, if_neg h1, if_neg h2, if_pos h4, List.length_cons,
            List.length_nil, Option.isSome]
        · by_cases hw : b &&& 0x07 = 2
          · simp only [parseRun, parseLoopF, if_neg h1, if_neg h2, if_neg h4, if_pos hw,
              List.length_cons, List.length_nil, Option.isSome]
          · simp only [parseRun, parseLoopF, if_neg h1, if_neg h2, if_neg h4, if_neg hw,
              List.length_cons, List.length_nil, List.drop_nil, Option.isSome]
  | b :: len :: t2, sender, mt, xt, dec => by
    have hag : ∀ (s : List Nat) (m : Option MessageType) (x : Option Nat) (d : Option Bool),
        parseLoopF (t2.length + 1) (t2.drop len) s m x d = parseRun (t2.drop len) s m x d := by
      intro s m x d
      exact parseLoopF_agree (t2.drop len) (t2.length + 1) (t2.drop len).length s m x d
        (by simp; omega) (by simp)
    by_cases h1 : b >>> 3 = 1 ∧ b &&& 0x07 = 2
    · simp only [parseRun, parseLoopF, if_pos h1, List.length_cons]
      rw [hag]
      exact parseRun_isSome (t2.drop len) (t2.take len) mt xt dec
    · by_cases h2 : b >>> 3 = 2 ∧ b &&& 0x07 = 2
      · simp only [parseRun, parseLoopF, if_neg h1, if_pos h2, List.length_cons]
        rw [hag]
        exact parseRun_isSome (t2.drop len) sender (some MessageType.XT_REQUEST) xt dec
      · by_cases h4 : b >>> 3 = 4 ∧ b &&& 0x07 = 2
        · simp only [parseRun, parseLoopF, if_neg h1, if_neg h2, if_pos h4, List.length_cons]
          rw [hag]
          exact parseRun_isSome (t2.drop len) sender (some MessageType.DECIDED) _ _
        · by_cases hw : b &&& 0x07 = 2
          · simp only [parseRun, parseLoopF, if_neg h1, if_neg h2, if_neg h4, if_pos hw,
              List.length_cons]
            rw [hag]
            exact parseRun_isSome (t2.drop len) sender mt xt dec
          · simp only [parseRun, parseLoopF, if_neg h1, if_neg h2, if_neg h4, if_neg hw,
              List.length_cons, List.drop_succ_cons, List.drop_zero]
            have hit : parseLoopF (t2.length + 1) t2 sender mt xt dec
                = parseRun t2 sender mt xt dec :=
              parseLoopF_agree t2 (t2.length + 1) t2.length sender mt xt dec
                (by omega) (by omega)
            rw [hit]
            exact parseRun_isSome t2 sender mt xt dec
termination_by rest => rest.length
decreasing_by all_goals (simp; omega)

/-- Stepping the parse loop over a recognized sender_id field (source lines
213-217): the sender becomes the declared slice, the cursor skips past it. -/
theorem parseRun_field1 (len : Nat) (t2 sender : List Nat) (mt : Option MessageType)
    (xt : Option Nat) (dec : Option Bool) :
    parseRun (0x0a :: len :: t2) sender mt xt dec
      = parseRun (t2.drop len) (t2.take len) mt xt dec := by
  have h1 : (0x0a : Nat) >>> 3 = 1 ∧ (0x0a : Nat) &&& 0x07 = 2 := by decide
  simp only [parseRun, List.length_cons, parseLoopF, if_pos h1]
  exact parseLoopF_agree (t2.drop len) (t2.length + 1) (t2.drop len).length
    (t2.take len) mt xt dec (by simp; omega) (by simp)

/-- Stepping the parse loop over a recognized xt_request field (source lines
219-224): the variant is recorded and the nested payload skipped. -/
theorem parseRun_field2 (len : Nat) (t2 sender : List Nat) (mt : Option MessageType)
    (xt : Option Nat) (dec : Option Bool) :
    parseRun (0x12 :: len :: t2) sender mt xt dec
      = parseRun (t2.drop len) sender (some MessageType.XT_REQUEST) xt dec := by
  have h1 : ¬((0x12 : Nat) >>> 3 = 1 ∧ (0x12 : Nat) &&& 0x07 = 2) := by decide
  have h2 : (0x12 : Nat) >>> 3 = 2 ∧ (0x12 : Nat) &&& 0x07 = 2 := by decide
  simp only [parseRun, List.length_cons, parseLoopF, if_neg h1, if_pos h2]
  exact parseLoopF_agree (t2.drop len) (t2.length + 1) (t2.drop len).length
    sender (some MessageType.XT_REQUEST) xt dec (by simp; omega) (by simp)

/-- Stepping the parse loop over an unknown length-delimited field (source
lines 250-253): one length byte read, `length` bytes skipped. -/
theorem parseRun_skipLD (b len : Nat) (t2 sender : List Nat) (mt : Option MessageType)
    (xt : Option Nat) (dec : Option Bool) (hw : b &&& 0x07 = 2)
    (hn1 : b >>> 3 ≠ 1) (hn2 : b >>> 3 ≠ 2) (hn4 : b >>> 3 ≠ 4) :
    parseRun (b :: len :: t2) sender mt xt dec = parseRun (t2.drop len) sender mt xt dec := by
  have h1 : ¬(b >>> 3 = 1 ∧ b &&& 0x07 = 2) := by intro h; exact hn1 h.1
  have h2 : ¬(b >>> 3 = 2 ∧ b &&& 0x07 = 2) := by intro h; exact hn2 h.1
  have h4 : ¬(b >>> 3 = 4 ∧ b &&& 0x07 = 2) := by intro h; exact hn4 h.1
  simp only [parseRun, List.length_cons, parseLoopF, if_neg h1, if_neg h2, if_neg h4, if_pos hw]
  exact parseLoopF_agree (t2.drop len) (t2.length + 1) (t2.drop len).length
    sender mt xt dec (by simp; omega) (by simp)

/-- Stepping the parse loop over an unknown non-length-delimited field
(source line 255): exactly one byte after the tag is skipped, whatever it
holds. -/
theorem parseRun_skip1 (b v : Nat) (t2 sender : List Nat) (mt : Option MessageType)
    (xt : Option Nat) (dec : Option Bool) (hw : b &&& 0x07 ≠ 2) :
    parseRun (b :: v :: t2) sender mt xt dec = parseRun t2 sender mt xt dec := by
  have h1 : ¬(b >>> 3 = 1 ∧ b &&& 0x07 = 2) := by intro h; exact hw h.2
  have h2 : ¬(b >>> 3 = 2 ∧ b &&& 0x07 = 2) := by intro h; exact hw h.2
  have h4 : ¬(b >>> 3 = 4 ∧ b &&& 0x07 = 2) := by intro h; exact hw h.2
  simp only [parseRun, List.length_cons, parseLoopF, if_neg h1, if_neg h2, if_neg h4, if_neg hw,
    List.drop_succ_cons, List.drop_zero]
  exact parseLoopF_agree t2 (t2.length + 1) t2.length sender mt xt dec (by omega) (by omega)

/-- An exhausted buffer returns the accumulated dictionary. -/
theorem parseRun_nil (sender : List Nat) (mt : Option MessageType) (xt : Option Nat)
    (dec : Option Bool) :
    parseRun [] sender mt xt dec = some (some (ParsedMsg.mk sender mt xt dec)) := rfl

/-- encode_varint of a value below 128 is the single raw byte. -/
theorem encodeVarint_of_le (n : Nat) (h : n ≤ 127) : encodeVarint n = [n] := by
  have hm : n &&& 0x7f = n := by
    have := Nat.and_pow_two_sub_one_eq_mod n 7
    simpa [Nat.mod_eq_of_lt (by omega : n < 128)] using this
  cases n with
  | zero => simp [encodeVarint, encodeVarintF]
  | succ m =>
    have hlt : ¬(m + 1 ≥ 0x80) := by omega
    simp [encodeVarint, encodeVarintF, hlt, hm]

/-- The guarded length field of create_xt_request_message always equals the
varint encoding of the length (the `> 127` check is exactly the boundary at
which the single raw byte and the varint encoding coincide). -/
theorem lenGuard_eq_encodeVarint (n : Nat) : lenGuard n = encodeVarint n := by
  by_cases h : n > 127
  · simp [lenGuard, h]
  · simp [lenGuard, h, encodeVarint_of_le n (by omega)]

/-- Looking up a key just inserted finds the inserted value. -/
theorem dictLookup_dictInsert (m : List (Nat × Bool)) (k : Nat) (v : Bool) :
    dictLookup (dictInsert m k v) k = some v := by
  induction m with
  | nil => simp [dictInsert, dictLookup]
  | cons a t ih =>
    by_cases h : a.1 = k
    · simp [dictInsert, h, dictLookup]
    · simp [dictInsert, h, dictLookup, ih]

/-- After erasing a key it is no longer found. -/
theorem dictLookup_dictErase (m : List (Nat × Bool)) (k : Nat) :
    dictLookup (dictErase m k) k = none := by
  induction m with
  | nil => rfl
  | cons a t ih =>
    by_cases h : a.1 = k
    · simpa [dictErase, List.filter_cons, h] using ih
    · simpa [dictErase, List.filter_cons, h, dictLookup] using ih

/-- Erasing an absent key leaves the map unchanged. -/
theorem dictErase_of_lookup_none (m : List (Nat × Bool)) (k : Nat)
    (h : dictLookup m k = none) : dictErase m k = m := by
  induction m with
  | nil => rfl
  | cons a t ih =>
    by_cases ha : a.1 = k
    · simp [dictLookup, ha] at h
    · simp [dictLookup, ha] at h
      simp [dictErase, List.filter_cons, ha] at ih ⊢
      exact ih h

/-- If every remaining byte has the continuation bit set, the varint scan
consumes the whole buffer. -/
theorem decodeVarintRem_all_cont (l : List Nat) (h : ∀ b ∈ l, b &&& 0x80 ≠ 0) :
    ∀ shift acc, (decodeVarintRem l shift acc).2 = [] := by
  induction l with
  | nil => intro shift acc; rfl
  | cons b t ih =>
    intro shift acc
    have hb : b &&& 0x80 ≠ 0 := h b (by simp)
    simp only [decodeVarintRem, if_neg hb]
    exact ih (fun x hx => h x (by simp [hx])) _ _

/-- Observed proposals are numbered consecutively from one past the current
counter value. -/
theorem observeIds_eq_range (n : Nat) : ∀ st : PState,
    observeIds n st = List.range' (st.currentXtId + 1) n := by
  induction n with
  | zero => intro st; rfl
  | succ m ih =>
    intro st
    simp [observeIds, handleXtRequest, ih, List.range']

end Phase2

namespace Phase2

/-! Claim theorems. -/

/-- C1 counterexample: encoding a Vote (sender "A", chain [0x12,0x34],
xt_id 1, vote true) and decoding it with parse_message does not return the
original message: the payload variant is lost (message_type is `none`, not
VOTE, and xt_id/decision are not recovered), because parse_message has no
branch for field 3.  Round-trip as claimed therefore fails. -/
theorem c1_counterexample :
    parseMessage (createVoteMessage [65] [0x12, 0x34] 1 true)
      = some (ParsedMsg.mk [65] none none none) := by decide

/-- C1 amended: decoding an encoder output preserves only the sender_id,
plus — for XTRequest messages whose payload fits in 127 bytes — the
XT_REQUEST variant; Vote and Block messages are skipped as unknown fields
and decode with message_type `none` and no payload fields.  (The `≤ 255`
bounds keep the modelled `bytes([len])` writes within Python's byte range;
the `≤ 127` bound keeps the XTRequest length prefix to the single byte form
that parse_message's one-byte length read can follow.) -/
theorem c1_amended (c ch bd : List Nat) (chains : List (List Nat)) (x : Nat) (d : Bool)
    (ids : List Nat)
    (hc : c.length ≤ 255) (hch : ch.length ≤ 255) (hbd : bd.length ≤ 255)
    (hcs : ∀ cid ∈ chains, cid.length ≤ 255)
    (hv : (votePayload ch x d).length ≤ 255)
    (hb : (blockPayload ch bd ids).length ≤ 255)
    (hx : (xtRequestBody chains).length ≤ 127) :
    parseMessage (createXtRequestMessage c chains)
      = some (ParsedMsg.mk c (some MessageType.XT_REQUEST) none none)
    ∧ parseMessage (createVoteMessage c ch x d) = some (ParsedMsg.mk c none none none)
    ∧ parseMessage (createBlockMessage c ch bd ids) = some (ParsedMsg.mk c none none none) := by
  refine ⟨?_, ?_, ?_⟩
  · have hlen : lenGuard (xtRequestBody chains).length = [(xtRequestBody chains).length] := by
      simp only [lenGuard]
      rw [if_neg (by omega)]
    have hshape : createXtRequestMessage c chains
        = 0x0a :: c.length
            :: (c ++ (0x12 :: (xtRequestBody chains).length :: xtRequestBody chains)) := by
      simp [createXtRequestMessage, hlen]
    have hrun : parseRun (createXtRequestMessage c chains) [] none none none
        = some (some (ParsedMsg.mk c (some MessageType.XT_REQUEST) none none)) := by
      rw [hshape, parseRun_field1, List.take_left, List.drop_left, parseRun_field2,
        List.drop_length, parseRun_nil]
    simp [parseMessage, hrun]
  · have hshape : createVoteMessage c ch x d
        = 0x0a :: c.length
            :: (c ++ (0x1a :: (votePayload ch x d).length :: votePayload ch x d)) := by
      simp [createVoteMessage]
    have hrun : parseRun (createVoteMessage c ch x d) [] none none none
        = some (some (ParsedMsg.mk c none none none)) := by
      rw [hshape, parseRun_field1, List.take_left, List.drop_left,
        parseRun_skipLD _ _ _ _ _ _ _ (by decide) (by decide) (by decide) (by decide),
        List.drop_length, parseRun_nil]
    simp [parseMessage, hrun]
  · have hshape : createBlockMessage c ch bd ids
        = 0x0a :: c.length
            :: (c ++ (0x2a :: (blockPayload ch bd ids).length :: blockPayload ch bd ids)) := by
      simp [createBlockMessage]
    have hrun : parseRun (createBlockMessage c ch bd ids) [] none none none
        = some (some (ParsedMsg.mk c none none none)) := by
      rw [hshape, parseRun_field1, List.take_left, List.drop_left,
        parseRun_skipLD _ _ _ _ _ _ _ (by decide) (by decide) (by decide) (by decide),
        List.drop_length, parseRun_nil]
    simp [parseMessage, hrun]

/-- C1 amended witness: the amended round-trip at the harness's default
inputs (sender "A", the three default chains, xt_id 1, commit vote, a
one-byte block payload). -/
theorem c1_amended_witness :
    (([65] : List Nat).length ≤ 255 ∧ ([0x12, 0x34] : List Nat).length ≤ 255
      ∧ ([66] : List Nat).length ≤ 255
      ∧ (∀ cid ∈ defaultChains, cid.length ≤ 255)
      ∧ (votePayload [0x12, 0x34] 1 true).length ≤ 255
      ∧ (blockPayload [0x12, 0x34] [66] [1]).length ≤ 255
      ∧ (xtRequestBody defaultChains).length ≤ 127)
    ∧ (parseMessage (createXtRequestMessage [65] defaultChains)
        = some (ParsedMsg.mk [65] (some MessageType.XT_REQUEST) none none)
      ∧ parseMessage (createVoteMessage [65] [0x12, 0x34] 1 true)
        = some (ParsedMsg.mk [65] none none none)
      ∧ parseMessage (createBlockMessage [65] [0x12, 0x34] [66] [1])
        = some (ParsedMsg.mk [65] none none none)) :=
  ⟨⟨by decide, by decide, by decide, by decide, by decide, by decide, by decide⟩,
    c1_amended [65] [0x12, 0x34] [66] defaultChains 1 true [1]
      (by decide) (by decide) (by decide) (by decide) (by decide) (by decide) (by decide)⟩

/-- C2 counterexample: a freshly initialised participant has no pending
entry for xt_id 1, yet handle_decided on Decided{1, true} schedules a Block
send and flips the coarse state to COMMITTED — not the claimed no-op.  The
same unchecked path fires on a duplicate Decided for an already resolved
xt_id, producing a second Block. -/
theorem c2_counterexample :
    (initState [65] [0x12, 0x34] "commit").active_transactions = []
    ∧ (handleDecided (initState [65] [0x12, 0x34] "commit") (some 1) (some true)).2
        = [Task.sendBlock (some 1)]
    ∧ (handleDecided (initState [65] [0x12, 0x34] "commit") (some 1) (some true)).1.state
        = SequencerState.COMMITTED :=
  ⟨rfl, rfl, rfl⟩

/-- C2 amended: handle_decided never consults the pending map before
acting.  For an xt_id with no pending entry, Decided{xt_id, true} still
sets the state to COMMITTED and schedules exactly one Block send (so a
duplicate Decided{true} does trigger a duplicate Block), while
Decided{xt_id, false} sets the state to ABORTED and — the deletion being
guarded by membership — leaves everything else unchanged, with no send. -/
theorem c2_amended (st : PState) (x : Nat)
    (h : dictLookup st.active_transactions x = none) :
    handleDecided st (some x) (some true)
      = ({ st with state := SequencerState.COMMITTED }, [Task.sendBlock (some x)])
    ∧ handleDecided st (some x) (some false)
      = ({ st with state := SequencerState.ABORTED }, []) :=
  ⟨rfl, by simp [handleDecided, pyTruthy, dictErase_of_lookup_none _ _ h]⟩

/-- C2 amended witness: the amended behaviour at a fresh participant and
xt_id 1. -/
theorem c2_amended_witness :
    dictLookup (initState [65] [0x12, 0x34] "commit").active_transactions 1 = none
    ∧ (handleDecided (initState [65] [0x12, 0x34] "commit") (some 1) (some true)
        = ({ initState [65] [0x12, 0x34] "commit" with state := SequencerState.COMMITTED },
            [Task.sendBlock (some 1)])
      ∧ handleDecided (initState [65] [0x12, 0x34] "commit") (some 1) (some false)
        = ({ initState [65] [0x12, 0x34] "commit" with state := SequencerState.ABORTED }, [])) :=
  ⟨rfl, c2_amended (initState [65] [0x12, 0x34] "commit") 1 rfl⟩

/-- C3 counterexample: on the buffer [0x80] — a continuation byte with no
terminator — decode_varint does not fail with MalformedVarint: it returns
the decoded value 0 with pos = 1 (the end of the buffer). -/
theorem c3_counterexample : decodeVarint [0x80] 0 = (0, 1) := by decide

/-- C3 amended: decode_varint cannot fail.  When the buffer runs out before
a byte with clear continuation bit (every remaining byte has the bit set),
it returns the value accumulated so far together with pos = len(data),
signalling nothing. -/
theorem c3_amended (data : List Nat) (offset : Nat)
    (h : ∀ b ∈ data.drop offset, b &&& 0x80 ≠ 0) :
    (decodeVarint data offset).2 = data.length := by
  have hrem := decodeVarintRem_all_cont (data.drop offset) h 0 0
  simp [decodeVarint, hrem]

/-- C3 amended witness: the truncated varint [0x80]. -/
theorem c3_amended_witness :
    (∀ b ∈ (([0x80] : List Nat).drop 0), b &&& 0x80 ≠ 0)
    ∧ (decodeVarint [0x80] 0).2 = ([0x80] : List Nat).length :=
  ⟨by decide, c3_amended [0x80] 0 (by decide)⟩

/-- C4 counterexample: an unknown varint field (tag 0x30 = field 6 wire
type 0) whose value 300 spans two bytes (0xAC 0x02) is not skipped whole:
only one byte after the tag is consumed, the remaining continuation byte is
reinterpreted as a field header, and the following recognized sender_id
field ("A") is swallowed — the parse returns sender_id [] instead of [65],
so recognized fields are not preserved.  Without the unknown field the same
sender_id parses correctly. -/
theorem c4_counterexample :
    parseMessage [0x30, 0xAC, 0x02, 0x0a, 0x01, 0x41] = some (ParsedMsg.mk [] none none none)
    ∧ parseMessage [0x0a, 0x01, 0x41] = some (ParsedMsg.mk [65] none none none) := by decide

/-- C4 amended: parse_message skips an unknown length-delimited field by its
declared (one-byte) length, preserving the recognized fields that follow;
for an unknown non-length-delimited field it skips exactly one byte after
the tag — correct only for one-byte varints, a multi-byte varint's
continuation bytes being left to be reinterpreted as field headers (see the
counterexample). -/
theorem c4_amended (b1 b2 len v : Nat) (payload c : List Nat)
    (hw1 : b1 &&& 0x07 = 2) (hn1 : b1 >>> 3 ≠ 1) (hn2 : b1 >>> 3 ≠ 2) (hn4 : b1 >>> 3 ≠ 4)
    (hlen : payload.length = len)
    (hw2 : b2 &&& 0x07 ≠ 2) :
    parseMessage (b1 :: len :: (payload ++ 0x0a :: c.length :: c))
      = some (ParsedMsg.mk c none none none)
    ∧ parseMessage (b2 :: v :: 0x0a :: c.length :: c)
      = some (ParsedMsg.mk c none none none) := by
  constructor
  · have hrun : parseRun (b1 :: len :: (payload ++ 0x0a :: c.length :: c)) [] none none none
        = some (some (ParsedMsg.mk c none none none)) := by
      rw [parseRun_skipLD _ _ _ _ _ _ _ hw1 hn1 hn2 hn4, ← hlen, List.drop_left,
        parseRun_field1, List.take_length, List.drop_length, parseRun_nil]
    simp [parseMessage, hrun]
  · have hrun : parseRun (b2 :: v :: 0x0a :: c.length :: c) [] none none none
        = some (some (ParsedMsg.mk c none none none)) := by
      rw [parseRun_skip1 _ _ _ _ _ _ _ hw2, parseRun_field1, List.take_length,
        List.drop_length, parseRun_nil]
    simp [parseMessage, hrun]

/-- C4 amended witness: an unknown length-delimited field 6 (tag 0x32, two
payload bytes) and an unknown one-byte varint field 6 (tag 0x30), each
followed by the sender_id "A", which survives. -/
theorem c4_amended_witness :
    ((0x32 : Nat) &&& 0x07 = 2 ∧ (0x32 : Nat) >>> 3 ≠ 1 ∧ (0x32 : Nat) >>> 3 ≠ 2
      ∧ (0x32 : Nat) >>> 3 ≠ 4 ∧ ([9, 9] : List Nat).length = 2 ∧ (0x30 : Nat) &&& 0x07 ≠ 2)
    ∧ (parseMessage (0x32 :: 2 :: ([9, 9] ++ 0x0a :: ([65] : List Nat).length :: [65]))
        = some (ParsedMsg.mk [65] none none none)
      ∧ parseMessage (0x30 :: 7 :: 0x0a :: ([65] : List Nat).length :: [65])
        = some (ParsedMsg.mk [65] none none none)) :=
  ⟨⟨by decide, by decide, by decide, by decide, by decide, by decide⟩,
    c4_amended 0x32 0x30 2 7 [9, 9] [65]
      (by decide) (by decide) (by decide) (by decide) (by decide) (by decide)⟩

set_option maxRecDepth 4096 in
/-- C5 counterexample: create_vote_message with a 128-byte client_id writes
the sender_id length as the single raw byte 128 followed immediately by the
first payload byte (65) — not the varint encoding of 128, which is the two
bytes [128, 1].  So not every length-delimited field gets a valid varint
length, and a 128-byte payload does not get a multi-byte varint. -/
theorem c5_counterexample :
    (createVoteMessage (List.replicate 128 65) [0x12, 0x34] 1 true).take 3 = [0x0a, 128, 65]
    ∧ encodeVarint 128 = [128, 1] := by decide

/-- C5 amended: only create_xt_request_message guards its two XTRequest
length fields with the `> 127` check, and that guard (lenGuard) always
produces the varint encoding of the length; every other length-delimited
field in the encoders is emitted as a single raw byte `bytes([len])`, which
coincides with the varint encoding exactly for lengths up to 127 — so
payloads of 128 bytes or more get a bare (malformed-as-varint) length byte
on all non-XTRequest paths. -/
theorem c5_amended :
    (∀ n : Nat, lenGuard n = encodeVarint n)
    ∧ (∀ n : Nat, n ≤ 127 → [n] = encodeVarint n) :=
  ⟨lenGuard_eq_encodeVarint, fun n h => (encodeVarint_of_le n h).symm⟩

/-- C5 amended witness: the guard at length 128 (varint [128, 1]) and the
raw byte at length 100 (coinciding with the varint). -/
theorem c5_amended_witness :
    lenGuard 128 = encodeVarint 128 ∧ (100 : Nat) ≤ 127 ∧ [100] = encodeVarint 100 :=
  ⟨c5_amended.1 128, by decide, c5_amended.2 100 (by decide)⟩

/-- C6 counterexample: after a peer close (zero-byte read) or a socket
error, the receive loop of a running participant terminates — but the
running flag is still true, not false as claimed: receive_messages never
assigns it, so the harness cannot observe the stop through that flag. -/
theorem c6_counterexample :
    (receiveLoop (initState [65] [0x12, 0x34] "commit") [RecvEvent.closedEv]).1.running = true
    ∧ (receiveLoop (initState [65] [0x12, 0x34] "commit") [RecvEvent.errorEv]).1.running = true :=
  ⟨rfl, rfl⟩

/-- C6 amended: a zero-byte read or a socket error makes the receive loop
terminate at once (the remaining events are never processed), but the loop
leaves the whole participant state — including the running flag — exactly
as it was; running becomes false only in run()'s cleanup, which is reached
only after the flag is cleared externally or on KeyboardInterrupt. -/
theorem c6_amended (st : PState) (rest : List RecvEvent) :
    receiveLoop st (RecvEvent.closedEv :: rest) = (st, [])
    ∧ receiveLoop st (RecvEvent.errorEv :: rest) = (st, [])
    ∧ (runCleanup st).running = false := by
  refine ⟨?_, ?_, rfl⟩ <;> cases h : st.running <;> simp [receiveLoop, h]

/-- C7: for a pending xt_id (present in active_transactions) and any vote
policy (the strategy field of the state is arbitrary), Decided{xt_id, true}
sets the state to COMMITTED and schedules exactly one Block task, whose
execution sends exactly one frame: a Block whose included_xt_ids list is
[xt_id]; Decided{xt_id, false} sets the state to ABORTED, removes the
pending entry, and sends nothing. -/
theorem c7_state_machine (st : PState) (x : Nat) (d : Bool) (bd : List Nat)
    (h : dictLookup st.active_transactions x = some d) :
    handleDecided st (some x) (some true)
      = ({ st with state := SequencerState.COMMITTED }, [Task.sendBlock (some x)])
    ∧ (sendBlockAfterDelay { st with state := SequencerState.COMMITTED } x bd).2
      = [frame (createBlockMessage st.client_id st.chain_id bd [x])]
    ∧ handleDecided st (some x) (some false)
      = ({ st with
            state := SequencerState.ABORTED,
            active_transactions := dictErase st.active_transactions x }, [])
    ∧ dictLookup (dictErase st.active_transactions x) x = none :=
  ⟨rfl, rfl, rfl, dictLookup_dictErase _ _⟩

/-- C7 witness: a participant in the Voting stage with xt_id 1 pending. -/
theorem c7_witness :
    dictLookup (PState.mk [65] [0x12, 0x34] "commit" SequencerState.VOTING [(1, true)] 1
        true).active_transactions 1 = some true
    ∧ (handleDecided (PState.mk [65] [0x12, 0x34] "commit" SequencerState.VOTING [(1, true)] 1
          true) (some 1) (some true)
        = (PState.mk [65] [0x12, 0x34] "commit" SequencerState.COMMITTED [(1, true)] 1 true,
            [Task.sendBlock (some 1)])
      ∧ (sendBlockAfterDelay
            (PState.mk [65] [0x12, 0x34] "commit" SequencerState.COMMITTED [(1, true)] 1 true)
            1 [66]).2
        = [frame (createBlockMessage [65] [0x12, 0x34] [66] [1])]
      ∧ handleDecided (PState.mk [65] [0x12, 0x34] "commit" SequencerState.VOTING [(1, true)] 1
          true) (some 1) (some false)
        = (PState.mk [65] [0x12, 0x34] "commit" SequencerState.ABORTED (dictErase [(1, true)] 1)
            1 true, [])
      ∧ dictLookup (dictErase [(1, true)] 1) 1 = none) :=
  ⟨rfl, c7_state_machine
    (PState.mk [65] [0x12, 0x34] "commit" SequencerState.VOTING [(1, true)] 1 true) 1 true [66]
    rfl⟩

/-- C8: the locally inferred xt_id is a per-participant counter.  From a
freshly constructed participant (counter 0) the ids assigned over n
observed proposals are exactly 1, 2, ..., n; each observation
(handle_xt_request or send_transaction) advances the counter by exactly
one, and no other operation (handle_decided, send_vote_after_delay,
send_block_after_delay) changes it — in particular none decreases it. -/
theorem c8_xt_id_counter :
    (∀ (client chain : List Nat) (strat : String) (n : Nat),
      observeIds n (initState client chain strat) = List.range' 1 n)
    ∧ (∀ st : PState, (handleXtRequest st).1.currentXtId = st.currentXtId + 1
        ∧ (sendTransaction st).1.currentXtId = st.currentXtId + 1)
    ∧ (∀ (st : PState) (xt : Option Nat) (dc : Option Bool),
        (handleDecided st xt dc).1.currentXtId = st.currentXtId)
    ∧ (∀ (st : PState) (x : Nat) (r : Bool),
        (sendVoteAfterDelay st x r).1.currentXtId = st.currentXtId)
    ∧ (∀ (st : PState) (x : Nat) (bd : List Nat),
        (sendBlockAfterDelay st x bd).1.currentXtId = st.currentXtId) := by
  refine ⟨?_, fun st => ⟨rfl, rfl⟩, ?_, fun st x r => rfl, fun st x bd => rfl⟩
  · intro client chain strat n
    rw [observeIds_eq_range]
    rfl
  · intro st xt dc
    by_cases h : pyTruthy dc = true
    · simp [handleDecided, h]
    · cases xt <;> simp [handleDecided, h]

/-- C9: parse_message is total at the caller's boundary.  For every input
byte sequence the parse loop, run at its canonical fuel, reaches a result —
either the dictionary with the four keys or the `none` that models a caught
exception — so nothing ever propagates to the receive loop, which only
tests the result for truthiness. -/
theorem c9_parse_total (data : List Nat) :
    (parseRun data [] none none none).isSome = true :=
  parseRun_isSome data [] none none none

/-- C10: handle_xt_request does not touch active_transactions (it only
advances the counter and schedules the vote task), so throughout the
policy-delay window between receiving a proposal and the vote being sent,
the pending map is exactly what it was before the proposal — in particular
an xt_id that was not pending is still not pending, and a Decided arriving
in that window finds no entry.  The entry appears in send_vote_after_delay,
after the Vote frame is produced. -/
theorem c10_pending_after_send :
    (∀ st : PState, ((handleXtRequest st).1).active_transactions = st.active_transactions
      ∧ (handleXtRequest st).2 = [Task.sendVote (st.currentXtId + 1)])
    ∧ (∀ (st : PState) (x : Nat) (r : Bool),
        ((sendVoteAfterDelay st x r).1).active_transactions
          = dictInsert st.active_transactions x (decideVote st.vote_strategy r)
        ∧ dictLookup ((sendVoteAfterDelay st x r).1).active_transactions x
          = some (decideVote st.vote_strategy r)) :=
  ⟨fun st => ⟨rfl, rfl⟩, fun st x r => ⟨rfl, dictLookup_dictInsert _ _ _⟩⟩

end Phase2
